import Mathlib

/- Verification development for openrlhf/trainer/gpm_trainer.py
   (GeneralPreferenceModelTrainer) and its driver openrlhf/cli/train_gpm.py.
   Each definition is a shallow embedding of the cited lines of the source. -/

/-- Loss implementations that occur in the trainer's dispatch and in its
isinstance checks (gpm_trainer.py lines 65-86, 158, 187, 271, 455, 465).
The regression MoE variant is never selected by the constructor but is
tested for by isinstance in fit and evaluate. -/
inductive LossVariant where
  | pairWise
  | generalPreference
  | highDimGeneralPreference
  | highDimGeneralPreferenceMoE
  | highDimGeneralPreferenceRegressionMoE
  deriving DecidableEq, Repr

/-- Loss dispatch in GeneralPreferenceModelTrainer.__init__ (lines 65-86).
Returns none when the assertion at line 73 (value_head_dim % 2 == 0) fails,
which aborts construction. -/
def selectLossFn (is_general_preference : Bool) (value_head_dim : Nat)
    (add_prompt_head : Bool) : Option LossVariant :=
  if is_general_preference then
    if value_head_dim == 2 && !add_prompt_head then
      some LossVariant.generalPreference
    else
      if value_head_dim % 2 == 0 then
        if add_prompt_head then
          some LossVariant.highDimGeneralPreferenceMoE
        else
          some LossVariant.highDimGeneralPreference
      else
        none
  else
    some LossVariant.pairWise

/-- Step restoration at the top of fit (line 134):
step = consumed_samples // train_batch_size * accumulated_gradient + 1. -/
def restoredStep (consumed_samples train_batch_size accumulated_gradient : Nat) : Nat :=
  consumed_samples / train_batch_size * accumulated_gradient + 1

/-- Epoch restoration at the top of fit (line 135):
start_epoch = consumed_samples // train_batch_size // num_update_steps_per_epoch. -/
def restoredStartEpoch (consumed_samples train_batch_size num_update_steps_per_epoch : Nat) : Nat :=
  consumed_samples / train_batch_size / num_update_steps_per_epoch

/-- Intra-epoch offset restoration at the top of fit (line 136):
consumed_samples = consumed_samples % (num_update_steps_per_epoch * train_batch_size). -/
def restoredOffset (consumed_samples train_batch_size num_update_steps_per_epoch : Nat) : Nat :=
  consumed_samples % (num_update_steps_per_epoch * train_batch_size)

/-- Consumed-samples value handed to the distributed sampler's set_epoch for a
given epoch (line 142): 0 if epoch > start_epoch else the restored offset. -/
def samplerConsumedSamples (epoch start_epoch offset : Nat) : Nat :=
  if epoch > start_epoch then 0 else offset

/-- Checkpoint tag written by save_logs_and_checkpoints (line 422). -/
def checkpointTag (global_step : Nat) : String :=
  "global_step" ++ toString global_step

/-- Client state persisted with a checkpoint (line 395). -/
structure ClientState where
  consumed_samples : Nat
  deriving DecidableEq, Repr

/-- Client state built in the micro-batch loop (line 395):
consumed_samples = global_step * train_batch_size. -/
def savedClientState (global_step train_batch_size : Nat) : ClientState :=
  ClientState.mk (global_step * train_batch_size)

/-- Checkpoint load in train_gpm.py (lines 128-129): consumed_samples is read
back from the persisted client state field of the same name. -/
def loadedConsumedSamples (st : ClientState) : Nat :=
  st.consumed_samples

/-- Modelled from the spec: internal state of the distributed-strategy
collaborator, whose implementation (openrlhf.utils) is not among the trainer
sources. Spec sections 4.4 and 5 state that the actual optimizer update fires
only every accumulated_gradient invocations of strategy.optimizer_step; the
state counts invocations of optimizer_step so far. -/
structure StrategyState where
  microSteps : Nat
  deriving DecidableEq, Repr

/-- Modelled from the spec: strategy.optimizer_step counts the invocation and
performs an actual optimizer update exactly on every
accumulated_gradient-th invocation. The Bool reports whether the update
fired. -/
def strategyOptimizerStep (accumulated_gradient : Nat) (s : StrategyState) :
    StrategyState × Bool :=
  (StrategyState.mk (s.microSteps + 1), (s.microSteps + 1) % accumulated_gradient == 0)

/-- Observable events of one micro-batch iteration of fit (lines 376-399):
the step value during the iteration, whether the strategy performed an actual
optimizer update, whether the logging/eval/checkpoint block ran, and the
global_step it was keyed with when it did. -/
structure TrainerEvent where
  step : Nat
  optimizerUpdate : Bool
  cadenceFired : Bool
  globalStep : Option Nat
  deriving DecidableEq, Repr

/-- Tail of the micro-batch loop of fit (lines 376-399): each micro-batch
calls strategy.backward, then strategy.optimizer_step, then runs the
logging/eval/checkpoint block exactly when step % accumulated_gradient == 0
with global_step = step // accumulated_gradient, then increments step by
one. -/
def runMicroBatches (accumulated_gradient : Nat) :
    Nat → Nat → StrategyState → List TrainerEvent
  | 0, _, _ => []
  | n + 1, step, st =>
    let r := strategyOptimizerStep accumulated_gradient st
    let cadence := step % accumulated_gradient == 0
    TrainerEvent.mk step r.2 cadence
        (if cadence then some (step / accumulated_gradient) else none)
      :: runMicroBatches accumulated_gradient n (step + 1) r.1

/-- Per-micro-batch metric observation: the accuracy, mean probability and
preference-loss value as produced by one loss computation of the loop body
(lines 187-205 for the first computation, lines 271-285 for the second). -/
structure MetricObs where
  acc : ℚ
  prob : ℚ
  loss : ℚ
  deriving DecidableEq, Repr

/-- Exponential-moving-average state of the three tracked metrics, the locals
acc_mean, prob_mean and loss_mean of fit. -/
structure EmaState where
  acc_mean : ℚ
  prob_mean : ℚ
  loss_mean : ℚ
  deriving DecidableEq, Repr

/-- One EMA update block (lines 208-211, repeated verbatim at lines 288-291):
each tracked mean m becomes m * 0.9 + 0.1 * x for the observed x. -/
def emaUpdate (s : EmaState) (o : MetricObs) : EmaState :=
  EmaState.mk (s.acc_mean * (9 / 10) + (1 / 10) * o.acc)
    (s.prob_mean * (9 / 10) + (1 / 10) * o.prob)
    (s.loss_mean * (9 / 10) + (1 / 10) * o.loss)

/-- Effect of one micro-batch on the EMA state: the loop body computes the
preference loss twice (lines 187-205 and lines 271-285) and runs the EMA
update block after each computation (lines 207-211 and lines 287-291), so the
update is applied twice per micro-batch, once with each computation's
observation. -/
def microBatchEma (s : EmaState) (o : MetricObs × MetricObs) : EmaState :=
  emaUpdate (emaUpdate s o.1) o.2

/-- Zero EMA state, the value assigned at lines 153-155. -/
def emaZero : EmaState := EmaState.mk 0 0 0

/-- EMA state at the end of one epoch's micro-batch loop: the three means are
set to 0 at the top of the epoch body (lines 152-155, inside the epoch loop
that starts at line 139) and then folded over the epoch's micro-batches. -/
def runEpochEma (batches : List (MetricObs × MetricObs)) : EmaState :=
  List.foldl microBatchEma emaZero batches

/-- Start-of-epoch and end-of-epoch EMA states for each epoch of a fit call.
Because the reset at lines 153-155 executes inside the epoch loop, every
epoch's micro-batch loop starts from the zero state, whatever the previous
epoch ended with. -/
def fitEmaTrace (epochs : List (List (MetricObs × MetricObs))) :
    List (EmaState × EmaState) :=
  epochs.map (fun bs => (emaZero, runEpochEma bs))

/-- Local variables of fit's micro-batch body bound by the batch unpacking at
lines 160-180; none marks a name the executed path never assigned, so that
reading it raises NameError. -/
structure FitLocals where
  chosen_ids : Option Unit
  c_mask : Option Unit
  reject_ids : Option Unit
  r_mask : Option Unit
  packed_input_ids : Option Unit
  packed_attention_masks : Option Unit
  packed_seq_lens : Option Unit
  deriving DecidableEq, Repr

/-- Reading a Python local: a name the current path never bound raises
NameError. -/
def readLocal (name : String) (v : Option Unit) : Except String Unit :=
  match v with
  | some u => Except.ok u
  | none => Except.error ("NameError: name " ++ name ++ " is not defined")

/-- Batch unpacking at lines 160-180: the non-packed branch binds chosen_ids,
c_mask, reject_ids and r_mask; the packed branch binds packed_input_ids,
packed_attention_masks and packed_seq_lens; neither branch binds the other
branch's names. -/
def bindBatchLocals (packing_samples : Bool) : FitLocals :=
  if !packing_samples then
    FitLocals.mk (some ()) (some ()) (some ()) (some ()) none none none
  else
    FitLocals.mk none none none none (some ()) (some ()) (some ())

/-- Control flow of one micro-batch body of fit with respect to local-name
reads. After the first forward/loss/EMA block, line 213 branches on
add_pretrain_loss: its then branch (lines 214-239) only tests the
DPORefFreeLoss isinstance, which is false because the constructor sets
ptx_loss_fn to SFTSumLoss (lines 90 and 122); its else branch (lines 240-243)
unconditionally calls concatenated_forward on packed_input_ids,
packed_attention_masks and packed_seq_lens. The result is ok () when the
iteration reaches its end (step incremented at line 398), and the raised
NameError otherwise. -/
def fitMicroBatchBody (packing_samples add_pretrain_loss : Bool) :
    Except String Unit := do
  let locals := bindBatchLocals packing_samples
  if add_pretrain_loss then
    pure ()
  else
    let _ ← readLocal "packed_input_ids" locals.packed_input_ids
    let _ ← readLocal "packed_attention_masks" locals.packed_attention_masks
    let _ ← readLocal "packed_seq_lens" locals.packed_seq_lens
  pure ()

/-- Decision of fit (line 158): request full model outputs exactly when the
loss is one of the two MoE variants. -/
def fitReturnOutput (v : LossVariant) : Bool :=
  v == LossVariant.highDimGeneralPreferenceRegressionMoE
    || v == LossVariant.highDimGeneralPreferenceMoE

/-- Decision of evaluate (line 455): request full model outputs only for the
regression MoE variant. -/
def evalReturnOutput (v : LossVariant) : Bool :=
  v == LossVariant.highDimGeneralPreferenceRegressionMoE

/-- Guard under which fit gathers the prompt hidden state and passes it to the
loss (lines 187 and 271). -/
def fitUsesPromptHiddenState (v : LossVariant) : Bool :=
  v == LossVariant.highDimGeneralPreferenceRegressionMoE
    || v == LossVariant.highDimGeneralPreferenceMoE

/-- Guard under which evaluate gathers the prompt hidden state and passes it
to the loss (line 465). -/
def evalUsesPromptHiddenState (v : LossVariant) : Bool :=
  v == LossVariant.highDimGeneralPreferenceRegressionMoE

/-- Prompt boundary index used by fit (lines 193 and 273):
sequence_length - chosen_response_len - 1. -/
def fitPromptEndIndex (sequence_length chosen_response_len : Int) : Int :=
  sequence_length - chosen_response_len - 1

/-- Index used by evaluate's hidden-state branch (line 467):
sequence_length - chosen_response_len, with no further subtraction. -/
def evalPromptIndex (sequence_length chosen_response_len : Int) : Int :=
  sequence_length - chosen_response_len

/-- Margin argument fit passes to the loss (lines 182-185): the margin tensor
when margin_loss is set, otherwise None. -/
def fitMarginArg (margin_loss : Bool) (margin : ℚ) : Option ℚ :=
  if margin_loss then some margin else none

/-- Margin argument evaluate passes to the loss (line 453): always the margin
tensor, regardless of margin_loss. -/
def evalMarginArg (_margin_loss : Bool) (margin : ℚ) : Option ℚ :=
  some margin

/-- Division as evaluated at the end of evaluate: a zero divisor raises
ZeroDivisionError in Python, modelled as none. -/
def pyDiv (a b : ℚ) : Option ℚ :=
  if b = 0 then none else some (a / b)

/-- Loss aggregation of evaluate (lines 436-488): loss_sum accumulates
loss.item() over the batches and loss_mean divides it by the dataloader
length, which equals the number of batches iterated. -/
def evaluateLossMean (batchLosses : List ℚ) : Option ℚ :=
  pyDiv batchLosses.sum (batchLosses.length : ℚ)

/-- Probability aggregation of evaluate (lines 437-489): prob_sum accumulates
prob.item() over the batches and prob_mean divides it by the dataloader
length. -/
def evaluateProbMean (batchProbs : List ℚ) : Option ℚ :=
  pyDiv batchProbs.sum (batchProbs.length : ℚ)

/-- Packed-path split of concatenated_forward (lines 515-529): with
num_sequences = len(packed_seq_lens) and num_chosen = num_sequences // 2, the
chosen rewards are all_values[:num_chosen] and the rejected rewards are
all_values[num_chosen:num_sequences]. -/
def packedSplit (all_values : List ℚ) (packed_seq_lens : List Nat) :
    List ℚ × List ℚ :=
  let num_sequences := packed_seq_lens.length
  let num_chosen := num_sequences / 2
  (all_values.take num_chosen, (all_values.take num_sequences).drop num_chosen)

/-- Helper pad_to_length of concatenated_inputs (lines 543-552), along the
padded dimension: a tensor already at or above the target length is returned
unchanged; otherwise pad_value entries are prepended on the left up to the
target length. -/
def pad_to_length (tensor : List Int) (length : Nat) (pad_value : Int) : List Int :=
  if tensor.length ≥ length then tensor
  else List.replicate (length - tensor.length) pad_value ++ tensor

/-- C1: at trainer construction, loss dispatch selects exactly one
implementation per the table of spec section 4.1 for every combination of
(is_general_preference, value_head_dim, add_prompt_head): the pairwise
log-sigmoid loss when is_general_preference is unset, the general-preference
pairwise loss for value_head_dim 2 with no prompt head, the high-dimensional
variant otherwise with the MoE form when the prompt head is enabled, and
construction fails fast when is_general_preference is set and value_head_dim
is odd (hence different from 2). -/
theorem loss_dispatch_table (igp ph : Bool) (d : Nat) :
    (igp = false → selectLossFn igp d ph = some LossVariant.pairWise) ∧
    (igp = true → d = 2 → ph = false →
      selectLossFn igp d ph = some LossVariant.generalPreference) ∧
    (igp = true → d % 2 = 0 → ph = true →
      selectLossFn igp d ph = some LossVariant.highDimGeneralPreferenceMoE) ∧
    (igp = true → d % 2 = 0 → d ≠ 2 → ph = false →
      selectLossFn igp d ph = some LossVariant.highDimGeneralPreference) ∧
    (igp = true → d % 2 = 1 → selectLossFn igp d ph = none) := by
  refine ⟨?_, ?_, ?_, ?_, ?_⟩
  · intro h; subst h; rfl
  · intro h1 h2 h3; subst h1; subst h2; subst h3; rfl
  · intro h1 h2 h3; subst h1; subst h3
    simp [selectLossFn, h2]
  · intro h1 h2 h3 h4; subst h1; subst h4
    simp [selectLossFn, h2, h3]
  · intro h1 h2; subst h1
    have hd : d ≠ 2 := by omega
    simp [selectLossFn, h2, hd]

/-- C1 witness: the dispatch table evaluated at the concrete configuration
(is_general_preference, value_head_dim = 4, no prompt head). -/
theorem loss_dispatch_table_witness :
    selectLossFn true 4 false = some LossVariant.highDimGeneralPreference :=
  (loss_dispatch_table true false 4).2.2.2.1 rfl rfl (by decide) rfl

/-- C2: with packing_samples and add_pretrain_loss both false, the micro-batch
body of fit always takes the else branch at lines 240-243, which reads
packed_input_ids; the non-packed path never bound that name, so every
micro-batch step raises NameError and no training step completes in this
configuration. -/
theorem nonpacked_no_pretrain_raises :
    fitMicroBatchBody false false =
      Except.error "NameError: name packed_input_ids is not defined" := by
  rfl

/-- C9: in the packed path of concatenated_forward, the chosen/rejected split
boundary over the forward-pass output rows equals len(packed_seq_lens) / 2:
the chosen rewards are the first half of the rows and the rejected rewards the
second half, and the split depends only on the length of the
sequence-lengths list, never on tensor content. -/
theorem packed_split_spec (v : List ℚ) (l : List Nat)
    (hv : v.length = l.length) :
    (packedSplit v l).1 = v.take (l.length / 2) ∧
    (packedSplit v l).2 = v.drop (l.length / 2) ∧
    (packedSplit v l).1 ++ (packedSplit v l).2 = v ∧
    (l.length % 2 = 0 → (packedSplit v l).1.length = l.length / 2 ∧
      (packedSplit v l).2.length = l.length / 2) ∧
    (∀ l' : List Nat, l'.length = l.length → packedSplit v l' = packedSplit v l) := by
  have h1 : (packedSplit v l).1 = v.take (l.length / 2) := rfl
  have htake : v.take l.length = v := by
    rw [← hv]; exact List.take_length v
  have h2 : (packedSplit v l).2 = v.drop (l.length / 2) := by
    show (v.take l.length).drop (l.length / 2) = v.drop (l.length / 2)
    rw [htake]
  refine ⟨h1, h2, ?_, ?_, ?_⟩
  · rw [h1, h2]; exact List.take_append_drop (l.length / 2) v
  · intro heven
    rw [h1, h2]
    constructor
    · rw [List.length_take]; omega
    · rw [List.length_drop]; omega
  · intro l' hl'
    show (v.take (l'.length / 2), (v.take l'.length).drop (l'.length / 2)) =
      (v.take (l.length / 2), (v.take l.length).drop (l.length / 2))
    rw [hl']

/-- C9 witness: the split boundary for the spec scenario
packed_seq_lens = [10, 12, 10, 12] and four reward rows is 2, chosen rows
[1, 2] and rejected rows [3, 4]. -/
theorem packed_split_spec_witness :
    (packedSplit [(1 : ℚ), 2, 3, 4] [10, 12, 10, 12]).1 =
      [(1 : ℚ), 2, 3, 4].take (([10, 12, 10, 12] : List Nat).length / 2) ∧
    (packedSplit [(1 : ℚ), 2, 3, 4] [10, 12, 10, 12]).2 =
      [(1 : ℚ), 2, 3, 4].drop (([10, 12, 10, 12] : List Nat).length / 2) :=
  ⟨(packed_split_spec [(1 : ℚ), 2, 3, 4] [10, 12, 10, 12] (by decide)).1,
   (packed_split_spec [(1 : ℚ), 2, 3, 4] [10, 12, 10, 12] (by decide)).2.1⟩

/-- C10: pad_to_length returns a tensor whose padded dimension is already at
or above the target length unchanged (hence it is idempotent), and for a
tensor below the target length it returns a tensor of exactly the target
length, with the fill value prepended on the left and the original content
preserved on the right. -/
theorem pad_to_length_spec (t : List Int) (n : Nat) (p : Int) :
    (n ≤ t.length → pad_to_length t n p = t) ∧
    (t.length < n →
      (pad_to_length t n p).length = n ∧
      pad_to_length t n p = List.replicate (n - t.length) p ++ t) ∧
    pad_to_length (pad_to_length t n p) n p = pad_to_length t n p := by
  by_cases h : t.length ≥ n
  · refine ⟨fun _ => ?_, fun hlt => absurd h (by omega), ?_⟩
    · simp [pad_to_length, h]
    · simp [pad_to_length, h]
  · have hlen : (pad_to_length t n p).length = n := by
      simp only [pad_to_length, if_neg h, List.length_append, List.length_replicate]
      omega
    refine ⟨fun hle => absurd hle (by omega), fun _ => ⟨hlen, ?_⟩, ?_⟩
    · simp [pad_to_length, h]
    · generalize hq : pad_to_length t n p = q at hlen
      simp [pad_to_length, hlen]

/-- C10 witness: padding [5] to length 3 with fill 0 yields [0, 0, 5] of
length 3, and padding the result again leaves it unchanged. -/
theorem pad_to_length_spec_witness :
    (pad_to_length [5] 3 0).length = 3 ∧
    pad_to_length [5] 3 0 = List.replicate 2 0 ++ [5] ∧
    pad_to_length (pad_to_length [5] 3 0) 3 0 = pad_to_length [5] 3 0 :=
  ⟨((pad_to_length_spec [5] 3 0).2.1 (by decide)).1,
   ((pad_to_length_spec [5] 3 0).2.1 (by decide)).2,
   (pad_to_length_spec [5] 3 0).2.2⟩

/-- C3: fit restores start_epoch = k / B / S and intra-epoch offset
k % (S * B) from consumed_samples = k, passes that offset to the sampler only
for the resumed epoch (0 for every later epoch), writes checkpoint tag
"global_step{g}" with client state consumed_samples = g * B, and re-deriving
the resume state from such a checkpoint yields consumed_samples exactly
g * B, hence start epoch g / S and intra-epoch offset (g % S) * B. -/
theorem resume_round_trip (k B S g : Nat) (hB : 0 < B) :
    restoredStartEpoch k B S = k / B / S ∧
    restoredOffset k B S = k % (S * B) ∧
    (∀ off, samplerConsumedSamples (restoredStartEpoch k B S)
      (restoredStartEpoch k B S) off = off) ∧
    (∀ e off, restoredStartEpoch k B S < e →
      samplerConsumedSamples e (restoredStartEpoch k B S) off = 0) ∧
    checkpointTag g = "global_step" ++ toString g ∧
    loadedConsumedSamples (savedClientState g B) = g * B ∧
    restoredStartEpoch (loadedConsumedSamples (savedClientState g B)) B S = g / S ∧
    restoredOffset (loadedConsumedSamples (savedClientState g B)) B S = g % S * B := by
  refine ⟨rfl, rfl, ?_, ?_, rfl, rfl, ?_, ?_⟩
  · intro off
    simp [samplerConsumedSamples]
  · intro e off he
    simp [samplerConsumedSamples, he]
  · show g * B / B / S = g / S
    rw [Nat.mul_div_cancel g hB]
  · show g * B % (S * B) = g % S * B
    exact Nat.mul_mod_mul_right B g S

/-- C3 witness: the spec scenario with consumed_samples 640,
train_batch_size 128, steps_per_epoch 50 and a checkpoint written at
global_step 5: the persisted state holds 640 and re-deriving from it gives
start epoch 0 and offset 640. -/
theorem resume_round_trip_witness :
    restoredStartEpoch 640 128 50 = 640 / 128 / 50 ∧
    restoredOffset 640 128 50 = 640 % (50 * 128) ∧
    loadedConsumedSamples (savedClientState 5 128) = 5 * 128 ∧
    restoredStartEpoch (loadedConsumedSamples (savedClientState 5 128)) 128 50 = 5 / 50 ∧
    restoredOffset (loadedConsumedSamples (savedClientState 5 128)) 128 50 = 5 % 50 * 128 := by
  have h := resume_round_trip 640 128 50 5 (by decide)
  exact ⟨h.1, h.2.1, h.2.2.2.2.2.1, h.2.2.2.2.2.2.1, h.2.2.2.2.2.2.2⟩

/-- C8 counterexample: running evaluate on an empty validation dataloader
divides the accumulated sums by the zero dataloader length, so both means are
undefined (Python raises ZeroDivisionError); evaluation therefore does raise
on an empty loader, contrary to the claim. -/
theorem evaluate_empty_loader_divzero :
    evaluateLossMean [] = none ∧ evaluateProbMean [] = none := by
  constructor <;> rfl

/-- C8 amended: when evaluate is called with an empty validation dataloader,
the final mean computation divides by the zero batch count and raises
(modelled as none); the orchestrator does not guard against this, and on any
non-empty loader both means are defined and equal sum over count. -/
theorem evaluate_mean_defined_iff_nonempty (losses probs : List ℚ) :
    (evaluateLossMean [] = none ∧ evaluateProbMean [] = none) ∧
    (losses ≠ [] →
      evaluateLossMean losses = some (losses.sum / (losses.length : ℚ))) ∧
    (probs ≠ [] →
      evaluateProbMean probs = some (probs.sum / (probs.length : ℚ))) := by
  refine ⟨⟨rfl, rfl⟩, ?_, ?_⟩
  · intro h
    have hl : losses.length ≠ 0 := fun h0 => h (List.length_eq_zero.mp h0)
    have hq : ((losses.length : ℚ)) ≠ 0 := Nat.cast_ne_zero.mpr hl
    simp [evaluateLossMean, pyDiv, hq]
  · intro h
    have hl : probs.length ≠ 0 := fun h0 => h (List.length_eq_zero.mp h0)
    have hq : ((probs.length : ℚ)) ≠ 0 := Nat.cast_ne_zero.mpr hl
    simp [evaluateProbMean, pyDiv, hq]

/-- C8 witness: a one-batch loader with loss 2 and probability 1 yields
defined means. -/
theorem evaluate_mean_defined_iff_nonempty_witness :
    evaluateLossMean [(2 : ℚ)] = some (List.sum [(2 : ℚ)] / ((List.length [(2 : ℚ)] : Nat) : ℚ)) ∧
    evaluateProbMean [(1 : ℚ)] = some (List.sum [(1 : ℚ)] / ((List.length [(1 : ℚ)] : Nat) : ℚ)) :=
  ⟨(evaluate_mean_defined_iff_nonempty [(2 : ℚ)] [(1 : ℚ)]).2.1 (by simp),
   (evaluate_mean_defined_iff_nonempty [(2 : ℚ)] [(1 : ℚ)]).2.2 (by simp)⟩

/-- C5 counterexample: with two epochs of one micro-batch each observing the
value 1 for every metric in both loss computations, the EMA state at the
start of the second epoch is the zero state and differs from the EMA state at
the end of the first epoch, so the means are not carried across the epoch
boundary. -/
theorem ema_not_carried_counterexample :
    Option.map Prod.fst ((fitEmaTrace [[(MetricObs.mk 1 1 1, MetricObs.mk 1 1 1)],
        [(MetricObs.mk 1 1 1, MetricObs.mk 1 1 1)]]).get? 1) ≠
    Option.map Prod.snd ((fitEmaTrace [[(MetricObs.mk 1 1 1, MetricObs.mk 1 1 1)],
        [(MetricObs.mk 1 1 1, MetricObs.mk 1 1 1)]]).get? 0) := by
  have hL : Option.map Prod.fst ((fitEmaTrace [[(MetricObs.mk 1 1 1, MetricObs.mk 1 1 1)],
      [(MetricObs.mk 1 1 1, MetricObs.mk 1 1 1)]]).get? 1) = some emaZero := rfl
  have hR : Option.map Prod.snd ((fitEmaTrace [[(MetricObs.mk 1 1 1, MetricObs.mk 1 1 1)],
      [(MetricObs.mk 1 1 1, MetricObs.mk 1 1 1)]]).get? 0) =
      some (emaUpdate (emaUpdate emaZero (MetricObs.mk 1 1 1)) (MetricObs.mk 1 1 1)) := rfl
  rw [hL, hR]
  intro h
  have h2 := congrArg EmaState.acc_mean (Option.some.inj h)
  simp [emaZero, emaUpdate] at h2
  norm_num at h2

/-- C5 amended: the exponential moving averages for loss, accuracy and
probability are re-initialized to zero at the start of every epoch of a fit
call, because the reset sits inside the epoch loop; hence the start-of-epoch
EMA values are always the zero state, regardless of the previous epoch's
final values. -/
theorem ema_reset_each_epoch (epochs : List (List (MetricObs × MetricObs))) :
    (fitEmaTrace epochs).map Prod.fst = List.replicate epochs.length emaZero := by
  induction epochs with
  | nil => rfl
  | cons e es ih => simp [fitEmaTrace, List.replicate_succ] at ih ⊢; exact ih

/-- C6 counterexample: after the first micro-batch from fresh state with every
metric observed as 1 by both loss computations, each tracked EMA equals
19/100, not 0.1 times the first observed value 1. -/
theorem ema_first_step_counterexample :
    (runEpochEma [(MetricObs.mk 1 1 1, MetricObs.mk 1 1 1)]).acc_mean ≠ (1 / 10) * (1 : ℚ) ∧
    (runEpochEma [(MetricObs.mk 1 1 1, MetricObs.mk 1 1 1)]).prob_mean ≠ (1 / 10) * (1 : ℚ) ∧
    (runEpochEma [(MetricObs.mk 1 1 1, MetricObs.mk 1 1 1)]).loss_mean ≠ (1 / 10) * (1 : ℚ) := by
  refine ⟨?_, ?_, ?_⟩ <;> simp [runEpochEma, microBatchEma, emaUpdate, emaZero]

/-- C6 amended: after processing the first micro-batch from fresh state, each
tracked EMA metric equals 9/100 times the value observed by the micro-batch's
first loss computation plus 1/10 times the value observed by its second loss
computation (hence 19/100 times the value when both computations observe the
same one), because the EMA update block runs twice per micro-batch. -/
theorem ema_first_micro_batch (o1 o2 : MetricObs) :
    runEpochEma [(o1, o2)] =
      EmaState.mk ((9 / 100) * o1.acc + (1 / 10) * o2.acc)
        ((9 / 100) * o1.prob + (1 / 10) * o2.prob)
        ((9 / 100) * o1.loss + (1 / 10) * o2.loss) := by
  simp only [runEpochEma, List.foldl_cons, List.foldl_nil, microBatchEma, emaUpdate,
    emaZero, EmaState.mk.injEq]
  refine ⟨by ring, by ring, by ring⟩

/-- C7: at the configuration whose loss the constructor actually selects with
a prompt head (is_general_preference, value_head_dim 4, add_prompt_head), the
evaluator's path diverges from the training path: fit requests full model
outputs and gathers the prompt hidden state at index
sequence_length - chosen_response_len - 1, while evaluate requests no
outputs, never gathers a prompt hidden state for this variant (its only
hidden-state branch tests the regression MoE class the constructor never
selects, and uses index sequence_length - chosen_response_len), and with
margin_loss unset fit passes no margin while evaluate always passes one. -/
theorem eval_path_differs_from_train :
    selectLossFn true 4 true = some LossVariant.highDimGeneralPreferenceMoE ∧
    fitReturnOutput LossVariant.highDimGeneralPreferenceMoE = true ∧
    evalReturnOutput LossVariant.highDimGeneralPreferenceMoE = false ∧
    fitUsesPromptHiddenState LossVariant.highDimGeneralPreferenceMoE = true ∧
    evalUsesPromptHiddenState LossVariant.highDimGeneralPreferenceMoE = false ∧
    fitPromptEndIndex 10 3 = 6 ∧
    evalPromptIndex 10 3 = 7 ∧
    fitMarginArg false 1 = none ∧
    evalMarginArg false 1 = some 1 := by
  decide

/-- Helper for C4: every event of the micro-batch loop tail, started at a step
value one ahead of the strategy's invocation count, carries a step in the
consecutive range starting there, and its optimizer-update and cadence flags
agree and hold exactly on steps divisible by accumulated_gradient, with the
global step step / accumulated_gradient attached exactly then. -/
theorem runMicroBatches_mem_spec (acc n : Nat) :
    ∀ (s0 : Nat) (e : TrainerEvent),
      e ∈ runMicroBatches acc n (s0 + 1) (StrategyState.mk s0) →
      s0 + 1 ≤ e.step ∧ e.step ≤ s0 + n ∧
      (e.optimizerUpdate = true ↔ e.step % acc = 0) ∧
      (e.cadenceFired = true ↔ e.step % acc = 0) ∧
      e.globalStep = (if e.step % acc = 0 then some (e.step / acc) else none) := by
  induction n with
  | zero =>
    intro s0 e he
    simp [runMicroBatches] at he
  | succ n ih =>
    intro s0 e he
    simp only [runMicroBatches, strategyOptimizerStep, List.mem_cons] at he
    rcases he with he | he
    · subst he
      refine ⟨le_refl _, show s0 + 1 ≤ s0 + (n + 1) by omega, by simp, by simp, ?_⟩
      by_cases hm : (s0 + 1) % acc = 0 <;> simp [hm]
    · have h := ih (s0 + 1) e he
      exact ⟨by omega, by omega, h.2.2.1, h.2.2.2.1, h.2.2.2.2⟩

/-- Helper for C4: the step values of n consecutive micro-batch iterations
form the consecutive range starting at the initial step, so the counter
increments by exactly one each iteration. -/
theorem runMicroBatches_step_map (acc n : Nat) :
    ∀ (step : Nat) (st : StrategyState),
      (runMicroBatches acc n step st).map TrainerEvent.step = List.range' step n := by
  induction n with
  | zero => intro step st; simp [runMicroBatches]
  | succ n ih =>
    intro step st
    simp [runMicroBatches, ih, List.range'_succ]

/-- C4: in every iteration of the training loop started fresh, the
per-micro-batch step counter increments by exactly one (the steps of n
iterations are exactly 1, 2, ..., n), and the strategy's optimizer update
together with the logging/eval/checkpoint cadence fires exactly on
micro-batches whose step is a multiple of accumulated_gradient, keyed off
global_step = step / accumulated_gradient; the optimizer update never fires
on any other micro-batch. -/
theorem step_and_optimizer_cadence (acc n : Nat) :
    (runMicroBatches acc n 1 (StrategyState.mk 0)).map TrainerEvent.step =
      List.range' 1 n ∧
    ∀ e ∈ runMicroBatches acc n 1 (StrategyState.mk 0),
      (e.optimizerUpdate = true ↔ e.step % acc = 0) ∧
      (e.cadenceFired = true ↔ e.step % acc = 0) ∧
      e.globalStep = (if e.step % acc = 0 then some (e.step / acc) else none) := by
  refine ⟨runMicroBatches_step_map acc n 1 (StrategyState.mk 0), ?_⟩
  intro e he
  have h := runMicroBatches_mem_spec acc n 0 e he
  exact ⟨h.2.2.1, h.2.2.2.1, h.2.2.2.2⟩

/-- C4 witness: with accumulated_gradient 2 and three fresh micro-batches,
the event at step 2 fires the optimizer update and the cadence with global
step 1. -/
theorem step_and_optimizer_cadence_witness :
    ((TrainerEvent.mk 2 true true (some 1)).optimizerUpdate = true ↔ 2 % 2 = 0) ∧
    ((TrainerEvent.mk 2 true true (some 1)).cadenceFired = true ↔ 2 % 2 = 0) ∧
    (TrainerEvent.mk 2 true true (some 1)).globalStep =
      (if 2 % 2 = 0 then some (2 / 2) else none) :=
  (step_and_optimizer_cadence 2 3).2 (TrainerEvent.mk 2 true true (some 1)) (by decide)
